import Mathlib

/-!
Verification of the speech-recognition app in src/Script.py.

Shallow embedding conventions:
- Python strings are modelled as List Char; Python str.strip is pyStrip.
- The JSON bodies returned by the Deepgram HTTP API are modelled by the
  inductive JVal; response.json() is an Except value (error = the text of the
  raised decode exception), mirroring that the call can raise.
- Each fallible external operation (file read, HTTP transport, JSON decode,
  wav write) appears as an explicit input of the function that performs it,
  so every execution path of the Python code is a case of the Lean function.
- transcribe_with_deepgram, transcribe_with_google,
  transcribe_audio_data_deepgram keep their source names; the accumulator
  update inlined in main (line 233-240 of src/Script.py) is mainAppendStep.
-/

/-- Whitespace characters removed by Python str.strip: space, tab, newline,
carriage return, vertical tab, form feed. -/
def isPySpace (c : Char) : Bool :=
  c == ' ' || c == Char.ofNat 9 || c == Char.ofNat 10 || c == Char.ofNat 13 ||
    c == Char.ofNat 11 || c == Char.ofNat 12

/-- Python str.lstrip. -/
def lstrip (s : List Char) : List Char := s.dropWhile isPySpace

/-- Python str.rstrip. -/
def rstrip (s : List Char) : List Char := (s.reverse.dropWhile isPySpace).reverse

/-- Python str.strip. -/
def pyStrip (s : List Char) : List Char := lstrip (rstrip s)

/-- Bool test that `needle` is an initial segment of `hay`. -/
def isPrefixChars : List Char → List Char → Bool
  | [], _ => true
  | _ :: _, [] => false
  | c :: cs, d :: ds => c == d && isPrefixChars cs ds

/-- Python substring containment `needle in hay`. -/
def isSubstring (needle : List Char) : List Char → Bool
  | [] => isPrefixChars needle []
  | c :: t => isPrefixChars needle (c :: t) || isSubstring needle t

/-- The apostrophe character, used by Python exception texts and repr. -/
def squote : Char := Char.ofNat 39

/-- Opening curly brace character (Python dict repr). -/
def lcurly : Char := Char.ofNat 123

/-- Closing curly brace character (Python dict repr). -/
def rcurly : Char := Char.ofNat 125

/-- JSON values as delivered by the provider HTTP API (numbers restricted to
naturals; the fields the code reads are strings, objects and arrays). -/
inductive JVal where
  | jnull
  | jbool (b : Bool)
  | jnum (n : Nat)
  | jstr (s : List Char)
  | jarr (elems : List JVal)
  | jobj (fields : List (List Char × JVal))

mutual

/-- Python repr of a JSON value (used by str() on containers). -/
def pyRepr : JVal → List Char
  | JVal.jnull => "None".toList
  | JVal.jbool true => "True".toList
  | JVal.jbool false => "False".toList
  | JVal.jnum n => Nat.toDigits 10 n
  | JVal.jstr s => squote :: s ++ [squote]
  | JVal.jarr elems => '[' :: pyReprElems elems ++ [']']
  | JVal.jobj fields => lcurly :: pyReprFields fields ++ [rcurly]

/-- Comma-separated reprs of list elements. -/
def pyReprElems : List JVal → List Char
  | [] => []
  | [v] => pyRepr v
  | v :: rest => pyRepr v ++ ", ".toList ++ pyReprElems rest

/-- Comma-separated reprs of dict entries. -/
def pyReprFields : List (List Char × JVal) → List Char
  | [] => []
  | [(k, v)] => squote :: k ++ squote :: ": ".toList ++ pyRepr v
  | (k, v) :: rest =>
      squote :: k ++ squote :: ": ".toList ++ pyRepr v ++ ", ".toList ++
        pyReprFields rest

end

/-- Python str() of a JSON value, as an f-string renders it. -/
def pyStr : JVal → List Char
  | JVal.jstr s => s
  | v => pyRepr v

/-- The Python type name of a JSON value, as it appears in exception texts. -/
def jvalTypeName : JVal → List Char
  | JVal.jnull => "NoneType".toList
  | JVal.jbool _ => "bool".toList
  | JVal.jnum _ => "int".toList
  | JVal.jstr _ => "str".toList
  | JVal.jarr _ => "list".toList
  | JVal.jobj _ => "dict".toList

/-- First binding of a key in a JSON object's field list. -/
def lookupField : List (List Char × JVal) → List Char → Option JVal
  | [], _ => none
  | (k, v) :: rest, key => if k = key then some v else lookupField rest key

/-- Python subscription value[key] with a string key; the error carries
str(e) of the exception the interpreter raises. -/
def jGetKey (j : JVal) (key : List Char) : Except (List Char) JVal :=
  match j with
  | JVal.jobj fields =>
    match lookupField fields key with
    | some v => Except.ok v
    | none => Except.error (squote :: key ++ [squote])
  | JVal.jarr _ => Except.error ("list indices must be integers or slices, not str".toList)
  | JVal.jstr _ => Except.error ("string indices must be integers".toList)
  | v => Except.error (squote :: jvalTypeName v ++ squote :: " object is not subscriptable".toList)

/-- Python subscription value[0]; the error carries str(e) of the raised
exception. -/
def jIdxZero (j : JVal) : Except (List Char) JVal :=
  match j with
  | JVal.jarr elems =>
    match elems with
    | v :: _ => Except.ok v
    | [] => Except.error ("list index out of range".toList)
  | JVal.jobj _ => Except.error ("0".toList)
  | JVal.jstr s =>
    match s with
    | c :: _ => Except.ok (JVal.jstr [c])
    | [] => Except.error ("string index out of range".toList)
  | v => Except.error (squote :: jvalTypeName v ++ squote :: " object is not subscriptable".toList)

/-- Python value.strip() requires a str; on other values the attribute access
raises. -/
def jAsStr : JVal → Except (List Char) (List Char)
  | JVal.jstr s => Except.ok s
  | v => Except.error (squote :: jvalTypeName v ++ squote ::
      " object has no attribute ".toList ++ squote :: "strip".toList ++ [squote])

/-- Line 74 of src/Script.py: the fixed transcript path
result[results][channels][0][alternatives][0][transcript], each subscription
fallible exactly as in Python. -/
def extractTranscript (body : JVal) : Except (List Char) (List Char) := do
  let r ← jGetKey body ("results".toList)
  let ch ← jGetKey r ("channels".toList)
  let ch0 ← jIdxZero ch
  let al ← jGetKey ch0 ("alternatives".toList)
  let al0 ← jIdxZero al
  let t ← jGetKey al0 ("transcript".toList)
  jAsStr t

/-- One HTTP response from the Deepgram endpoint: status code, the outcome of
response.json() (error = text of the decode exception), and response.text. -/
structure DGResponse where
  status : Nat
  jsonBody : Except (List Char) JVal
  rawText : List Char

/-- Lines 78-82 of src/Script.py: the error detail appended to the non-200
message: err_code from the JSON body when it is a dict (default value
Unknown error), otherwise response.text via the inner except. -/
def dgErrDetail (r : DGResponse) : List Char :=
  match r.jsonBody with
  | Except.ok (JVal.jobj fields) =>
    match lookupField fields ("err_code".toList) with
    | some v => pyStr v
    | none => "Unknown error".toList
  | Except.ok _ => r.rawText
  | Except.error _ => r.rawText

/-- Lines 77-83 of src/Script.py: the message built for a non-200 status. -/
def dgApiErrorMsg (r : DGResponse) : List Char :=
  "Deepgram API Error ".toList ++ Nat.toDigits 10 r.status ++ ": ".toList ++ dgErrDetail r

/-- Line 86 of src/Script.py: the message of the catch-all except branch. -/
def dgExcMsg (e : List Char) : List Char :=
  "Deepgram transcription error: ".toList ++ e

/-- The outcome of the fallible steps before the status branch of
transcribe_with_deepgram: the audio file read may raise, requests.post may
raise (timeout, connection), or a response arrives. -/
inductive DGCall where
  | readFail (e : List Char)
  | transportFail (e : List Char)
  | response (r : DGResponse)

/-- Lines 43-86 of src/Script.py. The api_key only enters the Authorization
header (dgAuthHeader); the language only enters the query parameters, which
are absorbed into the modelled response. Every raised exception is caught by
the outer try and rendered through dgExcMsg. -/
def transcribe_with_deepgram (api_key : List Char) (call : DGCall) : List Char :=
  match call with
  | DGCall.readFail e => dgExcMsg e
  | DGCall.transportFail e => dgExcMsg e
  | DGCall.response r =>
    if r.status = 200 then
      match r.jsonBody with
      | Except.error e => dgExcMsg e
      | Except.ok body =>
        match extractTranscript body with
        | Except.ok t => pyStrip t
        | Except.error e => dgExcMsg e
    else dgApiErrorMsg r

/-- Line 48 of src/Script.py: the Authorization header value the request
carries; the only place the key is used. -/
def dgAuthHeader (api_key : List Char) : List Char := "Token ".toList ++ api_key

/-- Number of HTTP transport invocations performed by
transcribe_with_deepgram on each path: requests.post runs exactly once
unless the file read already raised. -/
def dgTransportCalls : DGCall → Nat
  | DGCall.readFail _ => 0
  | DGCall.transportFail _ => 1
  | DGCall.response _ => 1

/-- A 200 response of the documented Deepgram shape with transcript t. -/
def dgOkResp (t : List Char) : DGResponse :=
  { status := 200
    jsonBody := Except.ok (JVal.jobj
      [("results".toList, JVal.jobj
        [("channels".toList, JVal.jarr
          [JVal.jobj
            [("alternatives".toList, JVal.jarr
              [JVal.jobj [("transcript".toList, JVal.jstr t)]])]])])])
    rawText := [] }

/-- A 401 response whose body carries an err_code, as Deepgram answers an
invalid key. -/
def resp401 : DGResponse :=
  { status := 401
    jsonBody := Except.ok (JVal.jobj [("err_code".toList, JVal.jstr ("INVALID_AUTH".toList))])
    rawText := [] }

/-- A 403 response with an undecodable body. -/
def resp403 : DGResponse :=
  { status := 403
    jsonBody := Except.error ("Expecting value: line 1 column 1 (char 0)".toList)
    rawText := "Forbidden".toList }

/-- A 200 response whose body lacks the fixed transcript path: the results
object has no channels key. -/
def respMalformed : DGResponse :=
  { status := 200
    jsonBody := Except.ok (JVal.jobj [("results".toList, JVal.jobj [])])
    rawText := [] }

/-- Outcome of the fallible operations inside transcribe_with_google
(lines 102-114 of src/Script.py): the recognizer returns text, raises
UnknownValueError, raises RequestError, or some other exception is raised
(including a failing AudioFile open). -/
inductive GRecOutcome where
  | recognized (t : List Char)
  | unknownValue
  | requestError (e : List Char)
  | otherError (e : List Char)

/-- Lines 102-114 of src/Script.py: each except branch renders its message. -/
def transcribe_with_google : GRecOutcome → List Char
  | GRecOutcome.recognized t => t
  | GRecOutcome.unknownValue => "Google could not understand audio.".toList
  | GRecOutcome.requestError e => "Google service error: ".toList ++ e
  | GRecOutcome.otherError e => "Error: ".toList ++ e

/-- Filesystem-visible events of transcribe_audio_data_deepgram. -/
inductive TmpEvent where
  | tmpCreate
  | tmpWrite
  | providerCall
  | tmpUnlink
  deriving DecidableEq

/-- Lines 88-100 of src/Script.py: a temp wav file is created
(NamedTemporaryFile, delete=False), the wav bytes are written (fallible:
get_wav_data or write may raise, modelled by wavWrite), the provider is
called (transcribe_with_deepgram never raises), os.unlink runs, the result
is returned; any exception goes to the except branch, which only returns a
message. The second component is the trace of events that happened. -/
def transcribe_audio_data_deepgram (api_key : List Char)
    (wavWrite : Except (List Char) Unit) (call : DGCall) :
    List Char × List TmpEvent :=
  match wavWrite with
  | Except.ok _ =>
    (transcribe_with_deepgram api_key call,
      [TmpEvent.tmpCreate, TmpEvent.tmpWrite, TmpEvent.providerCall, TmpEvent.tmpUnlink])
  | Except.error e => (dgExcMsg e, [TmpEvent.tmpCreate])

/-- Line 233-235 of src/Script.py: the marker substrings scanned for in the
result text. -/
def errorMarkers : List (List Char) :=
  ["Error".toList, "could not understand".toList, "service error".toList,
    "API Error".toList, "transcription error".toList]

/-- Line 233 of src/Script.py: the condition under which a result text is
appended to the session accumulator: the text is truthy (non-empty) and
contains none of the marker substrings. -/
def shouldAppend (text : List Char) : Bool :=
  !text.isEmpty && !(errorMarkers.any (fun m => isSubstring m text))

/-- Line 233-240 of src/Script.py: one accumulator update; when the text
passes the marker filter the code runs
st.session_state.transcription += " " + text.strip(), otherwise the state
is unchanged (the text is only shown as a warning). -/
def mainAppendStep (state text : List Char) : List Char :=
  if shouldAppend text then state ++ (' ' :: pyStrip text) else state

/-- A session: the accumulator starts empty (line 181-182) and is updated
once per transcription attempt, in call order. -/
def runSession (texts : List (List Char)) : List Char :=
  texts.foldl mainAppendStep []

/-- Line 228 of src/Script.py: the text produced when listening raises
WaitTimeoutError. -/
def timeoutMsg : List Char :=
  "⏰ No speech detected within the timeout period.".toList

/-- Outcome of the Save to File button. -/
inductive SaveOutcome where
  | wrote (filename content : List Char)
  | warned (msg : List Char)
  deriving DecidableEq

/-- Lines 252-259 of src/Script.py: if the trimmed accumulator is truthy it
is written to transcription.txt, otherwise a warning is shown and nothing
is written. -/
def saveToFile (state : List Char) : SaveOutcome :=
  if !(pyStrip state).isEmpty then
    SaveOutcome.wrote ("transcription.txt".toList) (pyStrip state)
  else SaveOutcome.warned ("⚠️ No transcription to save".toList)

/-- Lines 160-171 of src/Script.py: the recognition methods offered; the
Deepgram option appears only when the key field is non-empty. -/
def apiChoices (api_key : List Char) : List (List Char) :=
  if !api_key.isEmpty then
    ["Google Speech Recognition".toList, "Deepgram".toList, "Record First (PyAudio)".toList]
  else
    ["Google Speech Recognition".toList, "Record First (PyAudio)".toList]

/-! ## Helper lemmas -/

lemma rstrip_append_space (s : List Char) : rstrip (s ++ [' ']) = rstrip s := by
  unfold rstrip
  rw [List.reverse_append]
  simp [List.dropWhile, isPySpace]

lemma pyStrip_append_space (s : List Char) : pyStrip (s ++ [' ']) = pyStrip s := by
  unfold pyStrip
  rw [rstrip_append_space]

lemma isPrefixChars_append (n b : List Char) : isPrefixChars n (n ++ b) = true := by
  induction n with
  | nil => rfl
  | cons c cs ih => simp [isPrefixChars, ih]

lemma isSubstring_of_isPrefixChars (n hay : List Char) (h : isPrefixChars n hay = true) :
    isSubstring n hay = true := by
  cases hay with
  | nil => simpa [isSubstring] using h
  | cons c t => simp [isSubstring, h]

lemma isSubstring_cons (n : List Char) (c : Char) (t : List Char)
    (h : isSubstring n t = true) : isSubstring n (c :: t) = true := by
  simp [isSubstring, h]

lemma isSubstring_append (a n b : List Char) : isSubstring n (a ++ (n ++ b)) = true := by
  induction a with
  | nil => exact isSubstring_of_isPrefixChars n (n ++ b) (isPrefixChars_append n b)
  | cons c cs ih => exact isSubstring_cons n c (cs ++ (n ++ b)) ih

lemma dg_ok_eval (api_key t : List Char) :
    transcribe_with_deepgram api_key (DGCall.response (dgOkResp t)) = pyStrip t := rfl


/-! ## Claim theorems -/

/-- C1: the claim states that the trimmed snapshot contains exactly the
successful attempts and never the text of a failed attempt; the code
violates it: the WaitTimeoutError failure text of line 228 contains none of
the marker substrings of line 233, so the session appends this failure
message and the trimmed snapshot becomes exactly that message. -/
theorem c1_timeout_failure_appended :
    shouldAppend timeoutMsg = true ∧
      pyStrip (runSession [timeoutMsg]) = timeoutMsg ∧
      timeoutMsg.isEmpty = false := by
  decide

/-- C2 counterexample: a Deepgram 200 response of the documented shape whose
transcript is the word Error is a successful attempt, yet its text is not
appended: the accumulator is unchanged, refuting that every Success text is
appended regardless of its substrings. -/
theorem c2_counterexample :
    transcribe_with_deepgram [] (DGCall.response (dgOkResp ("Error".toList))) =
      "Error".toList ∧
    mainAppendStep ("hello".toList) ("Error".toList) = "hello".toList := by
  decide

/-- C2 (amended): whether a result text is appended is decided by substring
matching on the rendered text: the accumulator changes exactly when the text
is non-empty and contains none of the five marker substrings. -/
theorem c2_append_decided_by_markers (state text : List Char) :
    mainAppendStep state text ≠ state ↔ shouldAppend text = true := by
  unfold mainAppendStep
  by_cases hs : shouldAppend text = true
  · rw [if_pos hs]
    constructor
    · intro _
      exact hs
    · intro _ heq
      have hlen := congrArg List.length heq
      simp [List.length_append] at hlen
  · rw [if_neg hs]
    constructor
    · intro hne
      exact absurd rfl hne
    · intro ht
      exact absurd ht hs

/-- C2 witness: the amended characterization at a concrete text. -/
theorem c2_witness :
    shouldAppend ("hi".toList) = true ∧
      mainAppendStep [] ("hi".toList) ≠ ([] : List Char) := by
  refine ⟨by decide, ?_⟩
  exact (c2_append_decided_by_markers [] ("hi".toList)).mpr (by decide)

/-- C7: appending a text that trims to empty leaves the trimmed snapshot
unchanged: either the text is not appended at all, or only a trailing
space is added, which the snapshot trim removes. -/
theorem c7_whitespace_append_noop (state text : List Char)
    (h : pyStrip text = []) :
    pyStrip (mainAppendStep state text) = pyStrip state := by
  unfold mainAppendStep
  by_cases hs : shouldAppend text = true
  · rw [if_pos hs, h]
    exact pyStrip_append_space state
  · rw [if_neg hs]

/-- C7 witness: appending three spaces to the state hello leaves the trimmed
snapshot hello. -/
theorem c7_witness :
    pyStrip ("   ".toList) = [] ∧
      pyStrip (mainAppendStep ("hello".toList) ("   ".toList)) =
        pyStrip ("hello".toList) := by
  refine ⟨by decide, ?_⟩
  exact c7_whitespace_append_noop ("hello".toList) ("   ".toList) (by decide)

/-- C8: clicking Save to File with an accumulator whose trimmed value is
empty yields the warning outcome; no wrote outcome is produced at the
warning branch of lines 252-259. -/
theorem c8_empty_snapshot_save_warns (state : List Char)
    (h : pyStrip state = []) :
    saveToFile state = SaveOutcome.warned ("⚠️ No transcription to save".toList) := by
  simp [saveToFile, h]

/-- C8 witness: saving a whitespace-only accumulator warns. -/
theorem c8_witness :
    pyStrip ("   ".toList) = [] ∧
      saveToFile ("   ".toList) =
        SaveOutcome.warned ("⚠️ No transcription to save".toList) := by
  refine ⟨by decide, ?_⟩
  exact c8_empty_snapshot_save_warns ("   ".toList) (by decide)

/-- C3 counterexample: a Deepgram call with the empty key still performs its
one HTTP transport call and returns the rendered 401 provider message —
not a ConfigurationError outcome, which the code nowhere produces. -/
theorem c3_counterexample :
    transcribe_with_deepgram [] (DGCall.response resp401) =
      "Deepgram API Error 401: INVALID_AUTH".toList ∧
    dgTransportCalls (DGCall.response resp401) = 1 := by
  constructor
  · decide
  · rfl

/-- C3 (amended): the provider function never inspects the key: whenever a
response arrives the transport was invoked exactly once, the result is
independent of the key, and the UI instead omits the Deepgram option when
the key field is empty. -/
theorem c3_no_key_gate (api_key : List Char) (r : DGResponse) :
    dgTransportCalls (DGCall.response r) = 1 ∧
      transcribe_with_deepgram api_key (DGCall.response r) =
        transcribe_with_deepgram [] (DGCall.response r) ∧
      (apiChoices []).contains ("Deepgram".toList) = false := by
  refine ⟨rfl, rfl, by decide⟩

/-- C4 counterexample: a 200 response of the documented shape whose
transcript is whitespace-only yields the empty string from the success
branch; it is not a Failure value — both failure message families are
non-empty even with empty payloads — and the caller's truthiness guard
drops it silently. -/
theorem c4_counterexample :
    transcribe_with_deepgram [] (DGCall.response (dgOkResp ("   ".toList))) = [] ∧
      (dgExcMsg []).isEmpty = false ∧
      (dgApiErrorMsg (dgOkResp ("   ".toList))).isEmpty = false ∧
      shouldAppend [] = false := by
  decide

/-- C4 (amended): a 200 response whose transcript trims to empty returns the
empty string (the success branch), and the accumulator step on the empty
text leaves the state unchanged, so nothing is silently appended. -/
theorem c4_empty_transcript_empty_result (api_key t state : List Char)
    (h : pyStrip t = []) :
    transcribe_with_deepgram api_key (DGCall.response (dgOkResp t)) = [] ∧
      mainAppendStep state [] = state := by
  constructor
  · rw [dg_ok_eval, h]
  · rfl

/-- C4 witness: the amended statement at a three-space transcript. -/
theorem c4_witness :
    transcribe_with_deepgram [] (DGCall.response (dgOkResp ("   ".toList))) = [] ∧
      mainAppendStep ("abc".toList) [] = "abc".toList := by
  exact c4_empty_transcript_empty_result [] ("   ".toList) ("abc".toList) (by decide)

/-- C5 counterexample: a 200 response whose body lacks the fixed path (the
results object has no channels key) is rendered by the catch-all except
branch, not as an API error message, and the message contains neither the
status 200 nor any provider error code. -/
theorem c5_counterexample :
    transcribe_with_deepgram [] (DGCall.response respMalformed) =
      dgExcMsg (squote :: "channels".toList ++ [squote]) ∧
      transcribe_with_deepgram [] (DGCall.response respMalformed) ≠
        dgApiErrorMsg respMalformed ∧
      isSubstring (Nat.toDigits 10 respMalformed.status)
        (transcribe_with_deepgram [] (DGCall.response respMalformed)) = false := by
  refine ⟨by decide, by decide, by decide⟩

/-- C5 (amended): every non-200 response yields the API error message, which
contains the decimal status; a 200 response whose body lacks the fixed path
yields the generic exception message instead, carrying only the exception
text. -/
theorem c5_error_paths (api_key : List Char) (r : DGResponse) :
    (r.status ≠ 200 →
      transcribe_with_deepgram api_key (DGCall.response r) = dgApiErrorMsg r ∧
        isSubstring (Nat.toDigits 10 r.status) (dgApiErrorMsg r) = true) ∧
    (∀ body e, r.status = 200 → r.jsonBody = Except.ok body →
      extractTranscript body = Except.error e →
      transcribe_with_deepgram api_key (DGCall.response r) = dgExcMsg e) := by
  constructor
  · intro h
    constructor
    · simp [transcribe_with_deepgram, h]
    · unfold dgApiErrorMsg
      rw [List.append_assoc, List.append_assoc]
      exact isSubstring_append _ _ _
  · intro body e h200 hbody hex
    simp [transcribe_with_deepgram, h200, hbody, hex]

/-- C5 witness: a 403 response with an undecodable body yields the API error
message containing 403. -/
theorem c5_witness :
    transcribe_with_deepgram [] (DGCall.response resp403) = dgApiErrorMsg resp403 ∧
      isSubstring (Nat.toDigits 10 resp403.status) (dgApiErrorMsg resp403) = true := by
  exact (c5_error_paths [] resp403).1 (by decide)

/-- C6: every 200 response of the documented Deepgram shape returns the
whitespace-trimmed transcript from the success branch; in particular the
transcript hello world yields hello world. -/
theorem c6_documented_shape_success (api_key t : List Char) :
    transcribe_with_deepgram api_key (DGCall.response (dgOkResp t)) = pyStrip t ∧
      transcribe_with_deepgram api_key
        (DGCall.response (dgOkResp ("hello world".toList))) =
        "hello world".toList := by
  constructor
  · exact dg_ok_eval api_key t
  · rw [dg_ok_eval]
    decide

/-- C9: the claim states the temp file is deleted on every path; the code
violates it: when writing the wav bytes raises after NamedTemporaryFile has
created the file, the except branch returns a message without os.unlink, so
the trace holds the creation but no unlink. On the path where the write
succeeds the cleanup does run, unconditionally after the provider call. -/
theorem c9_tmpfile_left_behind :
    TmpEvent.tmpCreate ∈
      (transcribe_audio_data_deepgram []
        (Except.error ("No space left on device".toList))
        (DGCall.response resp401)).2 ∧
    TmpEvent.tmpUnlink ∉
      (transcribe_audio_data_deepgram []
        (Except.error ("No space left on device".toList))
        (DGCall.response resp401)).2 ∧
    (transcribe_audio_data_deepgram [] (Except.ok ())
        (DGCall.response resp401)).2 =
      [TmpEvent.tmpCreate, TmpEvent.tmpWrite, TmpEvent.providerCall,
        TmpEvent.tmpUnlink] := by
  refine ⟨by decide, by decide, rfl⟩

/-- C10: both transcription functions are total at their boundary: over every
outcome of the fallible operations they return a string drawn from the
enumerated return sites — the trimmed transcript, the API error message or
the catch-all exception message for Deepgram; the recognized text or one of
the three except-branch messages for Google. -/
theorem c10_total_result_classification (api_key : List Char) (c : DGCall)
    (g : GRecOutcome) :
    ((∃ e, transcribe_with_deepgram api_key c = dgExcMsg e) ∨
      (∃ r, c = DGCall.response r ∧
        transcribe_with_deepgram api_key c = dgApiErrorMsg r) ∨
      (∃ t, transcribe_with_deepgram api_key c = pyStrip t)) ∧
    ((∃ t, g = GRecOutcome.recognized t ∧ transcribe_with_google g = t) ∨
      transcribe_with_google g = "Google could not understand audio.".toList ∨
      (∃ e, transcribe_with_google g = "Google service error: ".toList ++ e) ∨
      (∃ e, transcribe_with_google g = "Error: ".toList ++ e)) := by
  constructor
  · cases c with
    | readFail e => exact Or.inl ⟨e, rfl⟩
    | transportFail e => exact Or.inl ⟨e, rfl⟩
    | response r =>
      by_cases h : r.status = 200
      · cases hb : r.jsonBody with
        | error e =>
          exact Or.inl ⟨e, by simp [transcribe_with_deepgram, h, hb]⟩
        | ok body =>
          cases hx : extractTranscript body with
          | error e =>
            exact Or.inl ⟨e, by simp [transcribe_with_deepgram, h, hb, hx]⟩
          | ok t =>
            exact Or.inr (Or.inr ⟨t, by simp [transcribe_with_deepgram, h, hb, hx]⟩)
      · exact Or.inr (Or.inl ⟨r, rfl, by simp [transcribe_with_deepgram, h]⟩)
  · cases g with
    | recognized t => exact Or.inl ⟨t, rfl, rfl⟩
    | unknownValue => exact Or.inr (Or.inl rfl)
    | requestError e => exact Or.inr (Or.inr (Or.inl ⟨e, rfl⟩))
    | otherError e => exact Or.inr (Or.inr (Or.inr ⟨e, rfl⟩))
